import Mathlib

/-!
Verification of the network-checker components of the documentation-reform
repository: the EVM `NetworkChecker`, `SolanaNetworkChecker` and
`SubstrateNetworkChecker` React components.  Each component loads a list of
network records from a static JSON document, filters it by a live search term
(capped to the first 10 matches for a non-empty term), and renders a dropdown,
a details panel for the selected network and a not-found message.

The embedding below models the JavaScript string operations used by the
components (`toLowerCase`, `includes`, `startsWith`, `Number.toString`), the
record types from the TypeScript interfaces, the derived computations
(`filteredNetworks`, `getAvailableData`), the component state with its event
handlers, the fetch effect with its error handling, and the conditional
rendering of the JSX.
-/

/- ### JavaScript string operations -/

/-- `startsWithL pat l` models `l.startsWith(pat)` on lists of characters:
`pat` occurs at the very start of `l`. -/
def startsWithL (pat : List Char) : List Char → Bool :=
  fun l =>
    match pat, l with
    | [], _ => true
    | _ :: _, [] => false
    | p :: ps, c :: cs => p == c && startsWithL ps cs

/-- `containsL pat l` models `l.includes(pat)`: `pat` occurs contiguously
somewhere inside `l`. -/
def containsL (pat : List Char) : List Char → Bool
  | [] => startsWithL pat []
  | c :: cs => startsWithL pat (c :: cs) || containsL pat cs

/-- `jsToLower s` models the JavaScript call `s.toLowerCase()` (the
components only feed it ASCII identifiers, where `Char.toLower` coincides
with the JavaScript behaviour). -/
def jsToLower (s : String) : String :=
  ⟨s.data.map Char.toLower⟩

/-- `jsStartsWith s pat` models the JavaScript call `s.startsWith(pat)`. -/
def jsStartsWith (s pat : String) : Bool :=
  startsWithL pat.data s.data

/-- `jsIncludes s pat` models the JavaScript call `s.includes(pat)`. -/
def jsIncludes (s pat : String) : Bool :=
  containsL pat.data s.data

/-- The mathematical statement that `pat` occurs contiguously in `s`. -/
def OccursIn (pat s : String) : Prop :=
  ∃ l1 l2, s.data = l1 ++ pat.data ++ l2

/-- The mathematical statement that `s` begins with `pat`. -/
def LeadsStr (pat s : String) : Prop :=
  ∃ t, s.data = pat.data ++ t

theorem startsWithL_iff (pat l : List Char) :
    startsWithL pat l = true ↔ ∃ t, l = pat ++ t := by
  induction pat generalizing l with
  | nil =>
    simp [startsWithL]
  | cons p ps ih =>
    cases l with
    | nil =>
      simp [startsWithL]
    | cons c cs =>
      rw [startsWithL]
      simp only [Bool.and_eq_true, beq_iff_eq, ih]
      constructor
      · rintro ⟨rfl, t, rfl⟩
        exact ⟨t, rfl⟩
      · rintro ⟨t, h⟩
        rw [List.cons_append] at h
        cases h
        exact ⟨rfl, t, rfl⟩

theorem containsL_iff (pat l : List Char) :
    containsL pat l = true ↔ ∃ l1 l2, l = l1 ++ pat ++ l2 := by
  induction l with
  | nil =>
    rw [containsL, startsWithL_iff]
    constructor
    · rintro ⟨t, h⟩
      exact ⟨[], t, by simpa using h⟩
    · rintro ⟨l1, l2, h⟩
      have h1 : (l1 = [] ∧ pat = []) ∧ l2 = [] := by
        simpa using List.append_eq_nil.mp h.symm
      exact ⟨l2, by simp [h1.1.2, h1.2]⟩
  | cons c cs ih =>
    rw [containsL, Bool.or_eq_true, startsWithL_iff, ih]
    constructor
    · rintro (⟨t, h⟩ | ⟨l1, l2, h⟩)
      · exact ⟨[], t, by simpa using h⟩
      · exact ⟨c :: l1, l2, by simp [h]⟩
    · rintro ⟨l1, l2, h⟩
      cases l1 with
      | nil =>
        exact Or.inl ⟨l2, by simpa using h⟩
      | cons d l1 =>
        rw [List.cons_append, List.cons_append] at h
        cases h
        exact Or.inr ⟨l1, l2, rfl⟩

theorem jsIncludes_iff (s pat : String) :
    jsIncludes s pat = true ↔ OccursIn pat s :=
  containsL_iff pat.data s.data

theorem jsStartsWith_iff (s pat : String) :
    jsStartsWith s pat = true ↔ LeadsStr pat s :=
  startsWithL_iff pat.data s.data

/- ### Data model: the TypeScript record interfaces -/

/-- A range endpoint of an EVM provider data item: `number | string | null`. -/
inductive RangeVal where
  | num (n : Int)
  | str (s : String)
  | null
deriving DecidableEq

/-- An element of `provider.data` for the EVM component:
`string | { name: string; ranges: ... }`. -/
inductive EvmDataItem where
  | str (s : String)
  | obj (name : String) (ranges : List (RangeVal × RangeVal))
deriving DecidableEq

/-- One entry of `NetworkData.providers` (EVM component). -/
structure EvmProvider where
  data : List EvmDataItem
  dataSourceUrl : String
  provider : String
  release : String
  supportTier : Int
deriving DecidableEq

/-- The `NetworkData` interface of the EVM `NetworkChecker`. -/
structure NetworkData where
  chainId : Int
  chainName : String
  id : String
  isTestnet : Option Bool
  logoUrl : String
  network : String
  providers : List EvmProvider
deriving DecidableEq

/-- An element of `provider.data` for the Solana component. -/
structure SolanaDataItem where
  name : String
  ranges : List (Option String × Option String)
deriving DecidableEq

/-- One entry of `SolanaNetworkData.providers`. -/
structure SolanaProvider where
  data : List SolanaDataItem
  dataSourceUrl : String
  provider : String
  release : String
  supportTier : Int
deriving DecidableEq

/-- The `SolanaNetworkData` interface of `SolanaNetworkChecker`. -/
structure SolanaNetworkData where
  id : String
  chainName : String
  isTestnet : Bool
  network : String
  providers : List SolanaProvider
deriving DecidableEq

/-- The `SubstrateNetworkData` interface of `SubstrateNetworkChecker`;
`relayChain` and `parachainId` are `string | null`. -/
structure SubstrateNetworkData where
  name : String
  displayName : String
  tokens : List String
  website : String
  description : String
  relayChain : Option String
  parachainId : Option String
deriving DecidableEq

/- ### The filter predicates and `filteredNetworks` -/

/-- The filter predicate of the EVM component (body of the `filter` callback in
its `filteredNetworks` memo):
`chainName.toLowerCase().includes(searchLower) ||
 chainId.toString().startsWith(searchTerm) ||
 id.toLowerCase().includes(searchLower)`. -/
def evmMatches (searchTerm : String) (network : NetworkData) : Bool :=
  let searchLower := (jsToLower searchTerm)
  jsIncludes (jsToLower network.chainName) searchLower ||
  jsStartsWith (toString network.chainId) searchTerm ||
  jsIncludes (jsToLower network.id) searchLower

/-- The filter predicate of the Solana component. -/
def solanaMatches (searchTerm : String) (network : SolanaNetworkData) : Bool :=
  let searchLower := (jsToLower searchTerm)
  jsIncludes (jsToLower network.chainName) searchLower ||
  jsIncludes (jsToLower network.id) searchLower ||
  jsIncludes (jsToLower network.network) searchLower

/-- The filter predicate of the Substrate component.  The truthiness guards
`network.parachainId && ...` and `network.relayChain && ...` are modelled by
the `Option` match together with a non-emptiness test (an empty string is
falsy in JavaScript). -/
def substrateMatches (searchTerm : String) (network : SubstrateNetworkData) : Bool :=
  let searchLower := (jsToLower searchTerm)
  jsIncludes (jsToLower network.displayName) searchLower ||
  jsIncludes (jsToLower network.name) searchLower ||
  (match network.parachainId with
   | some pid => decide (pid ≠ "") && jsStartsWith pid searchTerm
   | none => false) ||
  (match network.relayChain with
   | some rc => decide (rc ≠ "") && jsIncludes (jsToLower rc) searchLower
   | none => false)

/-- `filteredNetworks` of the EVM component: for a falsy (empty) search term
the whole list is returned, otherwise the matches capped to the first 10. -/
def filteredNetworksEvm (searchTerm : String) (networks : List NetworkData) :
    List NetworkData :=
  if searchTerm = "" then networks
  else ((networks.filter (evmMatches searchTerm)).take 10)

/-- `filteredNetworks` of the Solana component. -/
def filteredNetworksSolana (searchTerm : String) (networks : List SolanaNetworkData) :
    List SolanaNetworkData :=
  if searchTerm = "" then networks
  else ((networks.filter (solanaMatches searchTerm)).take 10)

/-- `filteredNetworks` of the Substrate component. -/
def filteredNetworksSubstrate (searchTerm : String)
    (networks : List SubstrateNetworkData) : List SubstrateNetworkData :=
  if searchTerm = "" then networks
  else ((networks.filter (substrateMatches searchTerm)).take 10)

/- ### `getAvailableData`: JavaScript `Set` plus `sort` -/

/-- Adding an element to a JavaScript `Set` (modelled as its insertion-order
list of elements): appended at the end when absent, ignored when present. -/
def setAdd (l : List String) (s : String) : List String :=
  if s ∈ l then l else l ++ [s]

/-- The insertion-order element list of the `Set` built by inserting the
elements of `l` in order. -/
def setOfList (l : List String) : List String :=
  l.foldl setAdd []

/-- The dataset name of an EVM `provider.data` item: the item itself when it
is a plain string, its `name` field otherwise. -/
def evmItemName : EvmDataItem → String
  | .str s => s
  | .obj name _ => name

/-- `getAvailableData` of the EVM component: all dataset names of all
providers, deduplicated through a `Set` and sorted. -/
def getAvailableDataEvm (network : NetworkData) : List String :=
  let allData := setOfList ((network.providers.map (fun p => p.data.map evmItemName)).flatten)
  allData.insertionSort (· ≤ ·)

/-- `getAvailableData` of the Solana component: all `item.name` of all
providers, deduplicated through a `Set` and sorted. -/
def getAvailableDataSolana (network : SolanaNetworkData) : List String :=
  let allData := setOfList ((network.providers.map (fun p => p.data.map SolanaDataItem.name)).flatten)
  allData.insertionSort (· ≤ ·)

theorem mem_setAdd (a s : String) (l : List String) :
    a ∈ setAdd l s ↔ a ∈ l ∨ a = s := by
  unfold setAdd
  by_cases h : s ∈ l
  · simp only [if_pos h]
    constructor
    · exact Or.inl
    · rintro (h1 | rfl)
      · exact h1
      · exact h
  · simp [if_neg h]

theorem nodup_setAdd (s : String) (l : List String) (h : l.Nodup) :
    (setAdd l s).Nodup := by
  unfold setAdd
  by_cases hs : s ∈ l
  · simpa [if_pos hs] using h
  · rw [if_neg hs]
    simpa [List.nodup_append] using ⟨h, hs⟩

theorem mem_foldl_setAdd (a : String) (l : List String) :
    ∀ acc, (a ∈ l.foldl setAdd acc ↔ a ∈ acc ∨ a ∈ l) := by
  induction l with
  | nil => simp
  | cons b bs ih =>
    intro acc
    rw [List.foldl_cons, ih, mem_setAdd]
    constructor
    · rintro ((h | rfl) | h)
      · exact Or.inl h
      · exact Or.inr (List.mem_cons.mpr (Or.inl rfl))
      · exact Or.inr (List.mem_cons.mpr (Or.inr h))
    · rintro (h | h)
      · exact Or.inl (Or.inl h)
      · rcases List.mem_cons.mp h with rfl | h
        · exact Or.inl (Or.inr rfl)
        · exact Or.inr h

theorem nodup_foldl_setAdd (l : List String) :
    ∀ acc, acc.Nodup → (l.foldl setAdd acc).Nodup := by
  induction l with
  | nil => exact fun acc h => h
  | cons b bs ih =>
    intro acc hacc
    rw [List.foldl_cons]
    exact ih (setAdd acc b) (nodup_setAdd b acc hacc)

theorem mem_setOfList (a : String) (l : List String) :
    a ∈ setOfList l ↔ a ∈ l := by
  rw [setOfList, mem_foldl_setAdd]
  simp

theorem nodup_setOfList (l : List String) : (setOfList l).Nodup :=
  nodup_foldl_setAdd l [] List.nodup_nil

/- ### Component state, fetch effect, rendering -/

/-- The five `useState` hooks of the EVM component. -/
structure EvmState where
  searchTerm : String
  selectedNetwork : Option NetworkData
  isDropdownOpen : Bool
  networks : List NetworkData
  loading : Bool

/-- The five `useState` hooks of the Solana component. -/
structure SolanaState where
  searchTerm : String
  selectedNetwork : Option SolanaNetworkData
  isDropdownOpen : Bool
  networks : List SolanaNetworkData
  loading : Bool

/-- The five `useState` hooks of the Substrate component. -/
structure SubstrateState where
  searchTerm : String
  selectedNetwork : Option SubstrateNetworkData
  isDropdownOpen : Bool
  networks : List SubstrateNetworkData
  loading : Bool

/-- The outcome of the `fetch` + `response.json()` of a component's document:
`failure` when either throws (the `catch` branch runs), `success doc` when a
document is parsed, where `doc = none` models a document whose expected
top-level key (`archives` or `networks`) is absent or falsy. -/
inductive FetchOutcome (α : Type) where
  | success (doc : Option (List α))
  | failure

/-- The state updates of the EVM `fetchNetworks`:
`setNetworks(data.archives || [])` on success, `setNetworks([])` in the
`catch` branch, `setLoading(false)` in the `finally` branch. -/
def applyFetchEvm (o : FetchOutcome NetworkData) (s : EvmState) : EvmState :=
  match o with
  | .success doc => { s with networks := doc.getD [], loading := false }
  | .failure => { s with networks := [], loading := false }

/-- The state updates of the Solana `fetchNetworks`. -/
def applyFetchSolana (o : FetchOutcome SolanaNetworkData) (s : SolanaState) :
    SolanaState :=
  match o with
  | .success doc => { s with networks := doc.getD [], loading := false }
  | .failure => { s with networks := [], loading := false }

/-- The state updates of the Substrate `fetchNetworks`
(`setNetworks(data.networks || [])`). -/
def applyFetchSubstrate (o : FetchOutcome SubstrateNetworkData)
    (s : SubstrateState) : SubstrateState :=
  match o with
  | .success doc => { s with networks := doc.getD [], loading := false }
  | .failure => { s with networks := [], loading := false }

/-- The parts of the EVM component's main (non-loading) JSX output the
verification tracks: whether the dropdown is shown, the details panel content
(present exactly when it is rendered), and the term shown by the not-found
message (present exactly when that message is rendered). -/
structure EvmView where
  showDropdown : Bool
  details : Option (String × Int × List String)
  notFoundTerm : Option String

/-- Same for the Solana component. -/
structure SolanaView where
  showDropdown : Bool
  details : Option (String × String × List String)
  notFoundTerm : Option String

/-- Same for the Substrate component (its details panel shows the display
name and a fixed message, no dataset list). -/
structure SubstrateView where
  showDropdown : Bool
  details : Option String
  notFoundTerm : Option String

/-- The render of the EVM component, threading the state through: `none` is
the loading placeholder; otherwise the guards of the JSX
(`isDropdownOpen && filteredNetworks.length > 0`, `selectedNetwork && ...`,
`searchTerm && !selectedNetwork && filteredNetworks.length === 0 && ...`)
decide what is shown.  The returned state is the state after rendering. -/
def renderEvm (s : EvmState) : Option EvmView × EvmState :=
  if s.loading then (none, s)
  else
    let filtered := filteredNetworksEvm s.searchTerm s.networks
    (some
      { showDropdown := s.isDropdownOpen && decide (0 < filtered.length)
        details := s.selectedNetwork.map
          (fun n => (n.chainName, n.chainId, getAvailableDataEvm n))
        notFoundTerm :=
          if s.searchTerm ≠ "" ∧ s.selectedNetwork = none ∧ filtered.length = 0
          then some s.searchTerm else none }, s)

/-- The render of the Solana component. -/
def renderSolana (s : SolanaState) : Option SolanaView × SolanaState :=
  if s.loading then (none, s)
  else
    let filtered := filteredNetworksSolana s.searchTerm s.networks
    (some
      { showDropdown := s.isDropdownOpen && decide (0 < filtered.length)
        details := s.selectedNetwork.map
          (fun n => (n.chainName, n.network, getAvailableDataSolana n))
        notFoundTerm :=
          if s.searchTerm ≠ "" ∧ s.selectedNetwork = none ∧ filtered.length = 0
          then some s.searchTerm else none }, s)

/-- The render of the Substrate component. -/
def renderSubstrate (s : SubstrateState) : Option SubstrateView × SubstrateState :=
  if s.loading then (none, s)
  else
    let filtered := filteredNetworksSubstrate s.searchTerm s.networks
    (some
      { showDropdown := s.isDropdownOpen && decide (0 < filtered.length)
        details := s.selectedNetwork.map (fun n => n.displayName)
        notFoundTerm :=
          if s.searchTerm ≠ "" ∧ s.selectedNetwork = none ∧ filtered.length = 0
          then some s.searchTerm else none }, s)

/- ### Events: mount effect, fetch resolution, user interaction -/

/-- The events that can hit a mounted EVM component: the mount (which runs
the empty-dependency effect), the resolution of the fetch, and the user
interactions wired to the handlers.  `blurTimeout` is the delayed
`setIsDropdownOpen(false)` scheduled by `handleInputBlur`. -/
inductive EvmEvent where
  | mount
  | fetchResolved (o : FetchOutcome NetworkData)
  | inputChange (value : String)
  | inputFocus
  | inputBlur
  | blurTimeout
  | select (network : NetworkData)

/-- Same events for the Solana component. -/
inductive SolanaEvent where
  | mount
  | fetchResolved (o : FetchOutcome SolanaNetworkData)
  | inputChange (value : String)
  | inputFocus
  | inputBlur
  | blurTimeout
  | select (network : SolanaNetworkData)

/-- Same events for the Substrate component. -/
inductive SubstrateEvent where
  | mount
  | fetchResolved (o : FetchOutcome SubstrateNetworkData)
  | inputChange (value : String)
  | inputFocus
  | inputBlur
  | blurTimeout
  | select (network : SubstrateNetworkData)

/-- One step of the EVM component: the new state and the number of fetches
issued by the step.  The mount runs the `useEffect` with dependency array
`[]`, whose body calls `fetchNetworks()` once; every handler body is taken
from the source and issues no fetch. -/
def evmStep (s : EvmState) : EvmEvent → EvmState × Nat
  | .mount => (s, 1)
  | .fetchResolved o => (applyFetchEvm o s, 0)
  | .inputChange v =>
      ({ s with searchTerm := v, selectedNetwork := none, isDropdownOpen := true }, 0)
  | .inputFocus => ({ s with isDropdownOpen := true }, 0)
  | .inputBlur => (s, 0)
  | .blurTimeout => ({ s with isDropdownOpen := false }, 0)
  | .select n =>
      ({ s with selectedNetwork := some n, searchTerm := n.chainName,
                isDropdownOpen := false }, 0)

/-- One step of the Solana component. -/
def solanaStep (s : SolanaState) : SolanaEvent → SolanaState × Nat
  | .mount => (s, 1)
  | .fetchResolved o => (applyFetchSolana o s, 0)
  | .inputChange v =>
      ({ s with searchTerm := v, selectedNetwork := none, isDropdownOpen := true }, 0)
  | .inputFocus => ({ s with isDropdownOpen := true }, 0)
  | .inputBlur => (s, 0)
  | .blurTimeout => ({ s with isDropdownOpen := false }, 0)
  | .select n =>
      ({ s with selectedNetwork := some n, searchTerm := n.chainName,
                isDropdownOpen := false }, 0)

/-- One step of the Substrate component (`handleNetworkSelect` copies the
`displayName` into the search box). -/
def substrateStep (s : SubstrateState) : SubstrateEvent → SubstrateState × Nat
  | .mount => (s, 1)
  | .fetchResolved o => (applyFetchSubstrate o s, 0)
  | .inputChange v =>
      ({ s with searchTerm := v, selectedNetwork := none, isDropdownOpen := true }, 0)
  | .inputFocus => ({ s with isDropdownOpen := true }, 0)
  | .inputBlur => (s, 0)
  | .blurTimeout => ({ s with isDropdownOpen := false }, 0)
  | .select n =>
      ({ s with selectedNetwork := some n, searchTerm := n.displayName,
                isDropdownOpen := false }, 0)

/-- Run a list of events through the EVM component, accumulating the number
of fetches issued. -/
def evmRun (s : EvmState) : List EvmEvent → EvmState × Nat
  | [] => (s, 0)
  | e :: es =>
      let p := evmStep s e
      let q := evmRun p.1 es
      (q.1, p.2 + q.2)

/-- Run a list of events through the Solana component. -/
def solanaRun (s : SolanaState) : List SolanaEvent → SolanaState × Nat
  | [] => (s, 0)
  | e :: es =>
      let p := solanaStep s e
      let q := solanaRun p.1 es
      (q.1, p.2 + q.2)

/-- Run a list of events through the Substrate component. -/
def substrateRun (s : SubstrateState) : List SubstrateEvent → SubstrateState × Nat
  | [] => (s, 0)
  | e :: es =>
      let p := substrateStep s e
      let q := substrateRun p.1 es
      (q.1, p.2 + q.2)

/-- The number of mount events in an EVM event list. -/
def countMountsEvm : List EvmEvent → Nat
  | [] => 0
  | EvmEvent.mount :: es => countMountsEvm es + 1
  | _ :: es => countMountsEvm es

/-- The number of mount events in a Solana event list. -/
def countMountsSolana : List SolanaEvent → Nat
  | [] => 0
  | SolanaEvent.mount :: es => countMountsSolana es + 1
  | _ :: es => countMountsSolana es

/-- The number of mount events in a Substrate event list. -/
def countMountsSubstrate : List SubstrateEvent → Nat
  | [] => 0
  | SubstrateEvent.mount :: es => countMountsSubstrate es + 1
  | _ :: es => countMountsSubstrate es

/- ### Selection invariant -/

/-- Whenever an EVM network is selected, the search box holds its
`chainName`. -/
def evmInv (s : EvmState) : Prop :=
  ∀ n, s.selectedNetwork = some n → s.searchTerm = n.chainName

/-- Whenever a Solana network is selected, the search box holds its
`chainName`. -/
def solanaInv (s : SolanaState) : Prop :=
  ∀ n, s.selectedNetwork = some n → s.searchTerm = n.chainName

/-- Whenever a Substrate network is selected, the search box holds its
`displayName`. -/
def substrateInv (s : SubstrateState) : Prop :=
  ∀ n, s.selectedNetwork = some n → s.searchTerm = n.displayName

/- ### Concrete sample data -/

/-- A minimal EVM network record with a given chain id. -/
def mkEvmNet (i : Nat) : NetworkData :=
  { chainId := Int.ofNat i, chainName := toString i, id := toString i,
    isTestnet := none, logoUrl := "", network := "", providers := [] }

/-- Eleven EVM network records. -/
def elevenEvmNets : List NetworkData :=
  (List.range 11).map mkEvmNet

/-- An EVM record whose chain id is 123 while its name and id share no
characters with the digits. -/
def evmCex : NetworkData :=
  { chainId := 123, chainName := "x", id := "y", isTestnet := none,
    logoUrl := "", network := "", providers := [] }

/-- The initial state of the EVM component (`useState` initialisers). -/
def evmInit : EvmState :=
  { searchTerm := "", selectedNetwork := none, isDropdownOpen := false,
    networks := [], loading := true }

/-- The initial state of the Solana component. -/
def solanaInit : SolanaState :=
  { searchTerm := "", selectedNetwork := none, isDropdownOpen := false,
    networks := [], loading := true }

/-- The initial state of the Substrate component. -/
def substrateInit : SubstrateState :=
  { searchTerm := "", selectedNetwork := none, isDropdownOpen := false,
    networks := [], loading := true }

/- ### C1 -/

/-- C1, counterexample: with the empty search term the EVM `filteredNetworks`
returns the whole loaded list, so an eleven-element list yields eleven
filtered elements, not at most ten. -/
theorem c1_counterexample :
    ¬ (filteredNetworksEvm "" elevenEvmNets).length ≤ 10 := by
  decide

/-- C1 (amended): for every loaded network list and every NON-EMPTY search
term, the filtered network list computed by each component's
`filteredNetworks` has at most 10 elements. -/
theorem c1_filtered_le_ten (searchTerm : String) (h : searchTerm ≠ "") :
    (∀ networks, (filteredNetworksEvm searchTerm networks).length ≤ 10) ∧
    (∀ networks, (filteredNetworksSolana searchTerm networks).length ≤ 10) ∧
    (∀ networks, (filteredNetworksSubstrate searchTerm networks).length ≤ 10) := by
  refine ⟨fun networks => ?_, fun networks => ?_, fun networks => ?_⟩
  · rw [filteredNetworksEvm, if_neg h]
    exact (List.length_take _ _).trans_le (min_le_left _ _)
  · rw [filteredNetworksSolana, if_neg h]
    exact (List.length_take _ _).trans_le (min_le_left _ _)
  · rw [filteredNetworksSubstrate, if_neg h]
    exact (List.length_take _ _).trans_le (min_le_left _ _)

/-- C1, witness: the amended bound evaluated on a non-empty term and the
eleven-element list. -/
theorem c1_witness : (filteredNetworksEvm "1" elevenEvmNets).length ≤ 10 :=
  (c1_filtered_le_ten "1" (by decide)).1 elevenEvmNets

/- ### C2 -/

/-- Modelled from the spec sentence of C2: a record passes when the
lowercased search term occurs as a substring of one of the searched
identifier fields, each lowercased — for the EVM component those fields are
`chainName`, `chainId` (as a string) and `id`. -/
def evmMatchesSpec (searchTerm : String) (network : NetworkData) : Bool :=
  jsIncludes (jsToLower network.chainName) (jsToLower searchTerm) ||
  jsIncludes (jsToLower (toString network.chainId)) (jsToLower searchTerm) ||
  jsIncludes (jsToLower network.id) (jsToLower searchTerm)

/-- C2, counterexample: for the term `"23"` and an EVM record with chain id
123, the term is a substring of the searched field `chainId` rendered as a
string, yet the record does not pass the code's filter, because the code
tests `chainId.toString().startsWith(searchTerm)` — a prefix test, not a
substring test. -/
theorem c2_counterexample :
    evmMatchesSpec "23" evmCex = true ∧ evmMatches "23" evmCex = false := by
  constructor
  · decide
  · decide

/-- C2 (amended): for every non-empty search term, matching on the textual
fields (`chainName`/`id` for EVM; `chainName`/`id`/`network` for Solana;
`displayName`/`name`/`relayChain` for Substrate) is case-insensitive
substring containment, while the numeric identifier fields — `chainId` for
EVM and `parachainId` for Substrate — are matched by a case-sensitive test
that the raw search term is an initial segment of the field. -/
theorem c2_match_characterization (searchTerm : String) (h : searchTerm ≠ "") :
    (∀ network : NetworkData,
       evmMatches searchTerm network = true ↔
         (OccursIn (jsToLower searchTerm) (jsToLower network.chainName) ∨
          LeadsStr searchTerm (toString network.chainId) ∨
          OccursIn (jsToLower searchTerm) (jsToLower network.id))) ∧
    (∀ network : SolanaNetworkData,
       solanaMatches searchTerm network = true ↔
         (OccursIn (jsToLower searchTerm) (jsToLower network.chainName) ∨
          OccursIn (jsToLower searchTerm) (jsToLower network.id) ∨
          OccursIn (jsToLower searchTerm) (jsToLower network.network))) ∧
    (∀ network : SubstrateNetworkData,
       substrateMatches searchTerm network = true ↔
         (OccursIn (jsToLower searchTerm) (jsToLower network.displayName) ∨
          OccursIn (jsToLower searchTerm) (jsToLower network.name) ∨
          (∃ pid, network.parachainId = some pid ∧ pid ≠ "" ∧
             LeadsStr searchTerm pid) ∨
          (∃ rc, network.relayChain = some rc ∧ rc ≠ "" ∧
             OccursIn (jsToLower searchTerm) (jsToLower rc)))) := by
  refine ⟨fun network => ?_, fun network => ?_, fun network => ?_⟩
  · simp only [evmMatches, Bool.or_eq_true, jsIncludes_iff, jsStartsWith_iff]
    tauto
  · simp only [solanaMatches, Bool.or_eq_true, jsIncludes_iff]
    tauto
  · rcases network with ⟨nm, dn, tk, ws, ds, rc, pid⟩
    cases pid <;> cases rc <;>
      simp [substrateMatches, Bool.or_eq_true, Bool.and_eq_true,
        jsIncludes_iff, jsStartsWith_iff, and_assoc] <;>
      tauto

/-- C2, witness: the characterization evaluated on a concrete term and
record. -/
theorem c2_witness :
    evmMatches "2" evmCex = true ↔
      (OccursIn (jsToLower "2") (jsToLower evmCex.chainName) ∨
       LeadsStr "2" (toString evmCex.chainId) ∨
       OccursIn (jsToLower "2") (jsToLower evmCex.id)) :=
  (c2_match_characterization "2" (by decide)).1 evmCex

/- ### C3 -/

/-- Taking the first `n` elements of a filtered list splits the original
list into a front part contributing exactly those elements and a tail whose
matches are all omitted. -/
theorem take_filter_split {α : Type} (p : α → Bool) (n : Nat) (l : List α) :
    ∃ l1 l2, l = l1 ++ l2 ∧ (l.filter p).take n = l1.filter p := by
  induction l generalizing n with
  | nil => exact ⟨[], [], rfl, by simp⟩
  | cons a tl ih =>
    by_cases hp : p a = true
    · cases n with
      | zero => exact ⟨[], a :: tl, rfl, by simp⟩
      | succ m =>
        obtain ⟨t1, t2, htl, ht⟩ := ih m
        refine ⟨a :: t1, t2, by rw [htl, List.cons_append], ?_⟩
        rw [List.filter_cons_of_pos hp, List.filter_cons_of_pos hp,
          List.take_succ_cons, ht]
    · obtain ⟨t1, t2, htl, ht⟩ := ih n
      refine ⟨a :: t1, t2, by rw [htl, List.cons_append], ?_⟩
      rw [List.filter_cons_of_neg (by simpa using hp),
        List.filter_cons_of_neg (by simpa using hp), ht]

/-- C3: for a non-empty search term each filtered list is exactly the first
(up to 10) matching records in the order of the loaded list: it equals
`take 10` of the filtered list, it is an order-preserving subsequence of the
loaded list, and the loaded list splits into a front part holding every kept
match and a tail holding every omitted one. -/
theorem c3_first_ten_matches (searchTerm : String) (h : searchTerm ≠ "") :
    (∀ networks : List NetworkData,
       filteredNetworksEvm searchTerm networks
           = (networks.filter (evmMatches searchTerm)).take 10 ∧
       (filteredNetworksEvm searchTerm networks).Sublist networks ∧
       ∃ l1 l2, networks = l1 ++ l2 ∧
         filteredNetworksEvm searchTerm networks
           = l1.filter (evmMatches searchTerm)) ∧
    (∀ networks : List SolanaNetworkData,
       filteredNetworksSolana searchTerm networks
           = (networks.filter (solanaMatches searchTerm)).take 10 ∧
       (filteredNetworksSolana searchTerm networks).Sublist networks ∧
       ∃ l1 l2, networks = l1 ++ l2 ∧
         filteredNetworksSolana searchTerm networks
           = l1.filter (solanaMatches searchTerm)) ∧
    (∀ networks : List SubstrateNetworkData,
       filteredNetworksSubstrate searchTerm networks
           = (networks.filter (substrateMatches searchTerm)).take 10 ∧
       (filteredNetworksSubstrate searchTerm networks).Sublist networks ∧
       ∃ l1 l2, networks = l1 ++ l2 ∧
         filteredNetworksSubstrate searchTerm networks
           = l1.filter (substrateMatches searchTerm)) := by
  refine ⟨fun networks => ?_, fun networks => ?_, fun networks => ?_⟩
  · have he : filteredNetworksEvm searchTerm networks
        = (networks.filter (evmMatches searchTerm)).take 10 := by
      rw [filteredNetworksEvm, if_neg h]
    refine ⟨he, ?_, ?_⟩
    · rw [he]
      exact (List.take_sublist _ _).trans (List.filter_sublist _)
    · rw [he]
      exact take_filter_split _ 10 networks
  · have he : filteredNetworksSolana searchTerm networks
        = (networks.filter (solanaMatches searchTerm)).take 10 := by
      rw [filteredNetworksSolana, if_neg h]
    refine ⟨he, ?_, ?_⟩
    · rw [he]
      exact (List.take_sublist _ _).trans (List.filter_sublist _)
    · rw [he]
      exact take_filter_split _ 10 networks
  · have he : filteredNetworksSubstrate searchTerm networks
        = (networks.filter (substrateMatches searchTerm)).take 10 := by
      rw [filteredNetworksSubstrate, if_neg h]
    refine ⟨he, ?_, ?_⟩
    · rw [he]
      exact (List.take_sublist _ _).trans (List.filter_sublist _)
    · rw [he]
      exact take_filter_split _ 10 networks

/-- C3, witness: the statement evaluated on a non-empty term and the
eleven-element list. -/
theorem c3_witness :
    filteredNetworksEvm "1" elevenEvmNets
        = (elevenEvmNets.filter (evmMatches "1")).take 10 ∧
    (filteredNetworksEvm "1" elevenEvmNets).Sublist elevenEvmNets ∧
    ∃ l1 l2, elevenEvmNets = l1 ++ l2 ∧
      filteredNetworksEvm "1" elevenEvmNets = l1.filter (evmMatches "1") :=
  (c3_first_ten_matches "1" (by decide)).1 elevenEvmNets

/- ### C4 -/

/-- C4: the details panel's dataset list contains a name exactly when some
provider of the selected network lists a data item with that name, for both
components that have a `getAvailableData`. -/
theorem c4_available_data_mem :
    (∀ (network : NetworkData) (s : String),
       s ∈ getAvailableDataEvm network ↔
         ∃ p ∈ network.providers, ∃ item ∈ p.data, evmItemName item = s) ∧
    (∀ (network : SolanaNetworkData) (s : String),
       s ∈ getAvailableDataSolana network ↔
         ∃ p ∈ network.providers, ∃ item ∈ p.data, item.name = s) := by
  constructor
  · intro network s
    simp only [getAvailableDataEvm]
    rw [(List.perm_insertionSort _ _).mem_iff, mem_setOfList]
    simp only [List.mem_flatten, List.mem_map]
    constructor
    · rintro ⟨l, ⟨p, hp, rfl⟩, hs⟩
      obtain ⟨item, hitem, rfl⟩ := List.mem_map.mp hs
      exact ⟨p, hp, item, hitem, rfl⟩
    · rintro ⟨p, hp, item, hitem, rfl⟩
      exact ⟨p.data.map evmItemName, ⟨p, hp, rfl⟩,
        List.mem_map.mpr ⟨item, hitem, rfl⟩⟩
  · intro network s
    simp only [getAvailableDataSolana]
    rw [(List.perm_insertionSort _ _).mem_iff, mem_setOfList]
    simp only [List.mem_flatten, List.mem_map]
    constructor
    · rintro ⟨l, ⟨p, hp, rfl⟩, hs⟩
      obtain ⟨item, hitem, rfl⟩ := List.mem_map.mp hs
      exact ⟨p, hp, item, hitem, rfl⟩
    · rintro ⟨p, hp, item, hitem, rfl⟩
      exact ⟨p.data.map SolanaDataItem.name, ⟨p, hp, rfl⟩,
        List.mem_map.mpr ⟨item, hitem, rfl⟩⟩

/- ### C5 -/

/-- C5: in every non-loading render, the details panel appears exactly when
a network is selected, the not-found message appears exactly when the term
is non-empty, nothing is selected and the filtered list is empty, and the
two are never shown together. -/
theorem c5_render_guards :
    (∀ s : EvmState, s.loading = false →
       ∃ v, (renderEvm s).1 = some v ∧
         (v.details.isSome = true ↔ s.selectedNetwork.isSome = true) ∧
         (v.notFoundTerm.isSome = true ↔
           (s.searchTerm ≠ "" ∧ s.selectedNetwork = none ∧
            filteredNetworksEvm s.searchTerm s.networks = [])) ∧
         ¬(v.details.isSome = true ∧ v.notFoundTerm.isSome = true)) ∧
    (∀ s : SolanaState, s.loading = false →
       ∃ v, (renderSolana s).1 = some v ∧
         (v.details.isSome = true ↔ s.selectedNetwork.isSome = true) ∧
         (v.notFoundTerm.isSome = true ↔
           (s.searchTerm ≠ "" ∧ s.selectedNetwork = none ∧
            filteredNetworksSolana s.searchTerm s.networks = [])) ∧
         ¬(v.details.isSome = true ∧ v.notFoundTerm.isSome = true)) ∧
    (∀ s : SubstrateState, s.loading = false →
       ∃ v, (renderSubstrate s).1 = some v ∧
         (v.details.isSome = true ↔ s.selectedNetwork.isSome = true) ∧
         (v.notFoundTerm.isSome = true ↔
           (s.searchTerm ≠ "" ∧ s.selectedNetwork = none ∧
            filteredNetworksSubstrate s.searchTerm s.networks = [])) ∧
         ¬(v.details.isSome = true ∧ v.notFoundTerm.isSome = true)) := by
  refine ⟨?_, ?_, ?_⟩
  · rintro ⟨term, sel, dd, nets, ld⟩ h
    subst h
    refine ⟨_, rfl, ?_, ?_, ?_⟩
    · cases sel <;> simp [renderEvm]
    · cases sel <;>
        simp [renderEvm, ← List.length_eq_zero, apply_ite Option.isSome]
    · cases sel <;> simp [renderEvm]
  · rintro ⟨term, sel, dd, nets, ld⟩ h
    subst h
    refine ⟨_, rfl, ?_, ?_, ?_⟩
    · cases sel <;> simp [renderSolana]
    · cases sel <;>
        simp [renderSolana, ← List.length_eq_zero, apply_ite Option.isSome]
    · cases sel <;> simp [renderSolana]
  · rintro ⟨term, sel, dd, nets, ld⟩ h
    subst h
    refine ⟨_, rfl, ?_, ?_, ?_⟩
    · cases sel <;> simp [renderSubstrate]
    · cases sel <;>
        simp [renderSubstrate, ← List.length_eq_zero, apply_ite Option.isSome]
    · cases sel <;> simp [renderSubstrate]

/-- C5, witness: the render guards evaluated at a concrete non-loading
state. -/
theorem c5_witness :
    ∃ v, (renderEvm (applyFetchEvm FetchOutcome.failure evmInit)).1 = some v ∧
      (v.details.isSome = true ↔
        (applyFetchEvm FetchOutcome.failure evmInit).selectedNetwork.isSome = true) ∧
      (v.notFoundTerm.isSome = true ↔
        ((applyFetchEvm FetchOutcome.failure evmInit).searchTerm ≠ "" ∧
         (applyFetchEvm FetchOutcome.failure evmInit).selectedNetwork = none ∧
         filteredNetworksEvm (applyFetchEvm FetchOutcome.failure evmInit).searchTerm
           (applyFetchEvm FetchOutcome.failure evmInit).networks = [])) ∧
      ¬(v.details.isSome = true ∧ v.notFoundTerm.isSome = true) :=
  c5_render_guards.1 (applyFetchEvm FetchOutcome.failure evmInit) rfl

/- ### C6 -/

/-- C6: rendering — which evaluates `filteredNetworks` and, when a network
is selected, `getAvailableData` — returns the state unchanged: the networks
list keeps its identity, its length, its elements and their order. -/
theorem c6_render_frame :
    (∀ s : EvmState, (renderEvm s).2 = s ∧
       (renderEvm s).2.networks.length = s.networks.length ∧
       ∀ i, (renderEvm s).2.networks.get? i = s.networks.get? i) ∧
    (∀ s : SolanaState, (renderSolana s).2 = s ∧
       (renderSolana s).2.networks.length = s.networks.length ∧
       ∀ i, (renderSolana s).2.networks.get? i = s.networks.get? i) ∧
    (∀ s : SubstrateState, (renderSubstrate s).2 = s ∧
       (renderSubstrate s).2.networks.length = s.networks.length ∧
       ∀ i, (renderSubstrate s).2.networks.get? i = s.networks.get? i) := by
  refine ⟨fun s => ?_, fun s => ?_, fun s => ?_⟩
  · have h2 : (renderEvm s).2 = s := by
      rw [renderEvm]; split <;> rfl
    exact ⟨h2, by rw [h2], fun i => by rw [h2]⟩
  · have h2 : (renderSolana s).2 = s := by
      rw [renderSolana]; split <;> rfl
    exact ⟨h2, by rw [h2], fun i => by rw [h2]⟩
  · have h2 : (renderSubstrate s).2 = s := by
      rw [renderSubstrate]; split <;> rfl
    exact ⟨h2, by rw [h2], fun i => by rw [h2]⟩

/- ### C7 -/

/-- The EVM component issues exactly one fetch per mount event, over any
event list. -/
theorem evmRun_fetches (evs : List EvmEvent) :
    ∀ s, (evmRun s evs).2 = countMountsEvm evs := by
  induction evs with
  | nil => intro s; rfl
  | cons e es ih =>
    intro s
    cases e <;> simp [evmRun, evmStep, countMountsEvm, ih, Nat.add_comm]

/-- The Solana component issues exactly one fetch per mount event. -/
theorem solanaRun_fetches (evs : List SolanaEvent) :
    ∀ s, (solanaRun s evs).2 = countMountsSolana evs := by
  induction evs with
  | nil => intro s; rfl
  | cons e es ih =>
    intro s
    cases e <;> simp [solanaRun, solanaStep, countMountsSolana, ih, Nat.add_comm]

/-- The Substrate component issues exactly one fetch per mount event. -/
theorem substrateRun_fetches (evs : List SubstrateEvent) :
    ∀ s, (substrateRun s evs).2 = countMountsSubstrate evs := by
  induction evs with
  | nil => intro s; rfl
  | cons e es ih =>
    intro s
    cases e <;> simp [substrateRun, substrateStep, countMountsSubstrate, ih, Nat.add_comm]

/-- C7: over the lifetime of a single mount (an event list with exactly one
mount event) each component issues exactly one fetch, and no user
interaction or fetch-resolution event issues any. -/
theorem c7_single_fetch :
    (∀ (s : EvmState) (evs : List EvmEvent),
       countMountsEvm evs = 1 → (evmRun s evs).2 = 1) ∧
    (∀ (s : EvmState) (e : EvmEvent),
       e ≠ EvmEvent.mount → (evmStep s e).2 = 0) ∧
    (∀ (s : SolanaState) (evs : List SolanaEvent),
       countMountsSolana evs = 1 → (solanaRun s evs).2 = 1) ∧
    (∀ (s : SolanaState) (e : SolanaEvent),
       e ≠ SolanaEvent.mount → (solanaStep s e).2 = 0) ∧
    (∀ (s : SubstrateState) (evs : List SubstrateEvent),
       countMountsSubstrate evs = 1 → (substrateRun s evs).2 = 1) ∧
    (∀ (s : SubstrateState) (e : SubstrateEvent),
       e ≠ SubstrateEvent.mount → (substrateStep s e).2 = 0) := by
  refine ⟨?_, ?_, ?_, ?_, ?_, ?_⟩
  · intro s evs h
    rw [evmRun_fetches evs s, h]
  · intro s e he
    cases e with
    | mount => exact absurd rfl he
    | fetchResolved o => rfl
    | inputChange v => rfl
    | inputFocus => rfl
    | inputBlur => rfl
    | blurTimeout => rfl
    | select n => rfl
  · intro s evs h
    rw [solanaRun_fetches evs s, h]
  · intro s e he
    cases e with
    | mount => exact absurd rfl he
    | fetchResolved o => rfl
    | inputChange v => rfl
    | inputFocus => rfl
    | inputBlur => rfl
    | blurTimeout => rfl
    | select n => rfl
  · intro s evs h
    rw [substrateRun_fetches evs s, h]
  · intro s e he
    cases e with
    | mount => exact absurd rfl he
    | fetchResolved o => rfl
    | inputChange v => rfl
    | inputFocus => rfl
    | inputBlur => rfl
    | blurTimeout => rfl
    | select n => rfl

/-- C7, witness: a concrete mount-then-interact trace issues exactly one
fetch, and a focus event alone issues none. -/
theorem c7_witness :
    (evmRun evmInit
      [EvmEvent.mount, EvmEvent.inputFocus, EvmEvent.inputChange "a"]).2 = 1 ∧
    (evmStep evmInit EvmEvent.inputFocus).2 = 0 :=
  ⟨c7_single_fetch.1 evmInit _ rfl,
   c7_single_fetch.2.1 evmInit _ (fun h => EvmEvent.noConfusion h)⟩

/- ### C8 -/

/-- C8: every event handler preserves the invariant that a selected network's
display name fills the search box: `handleNetworkSelect` establishes it
outright, `handleInputChange` clears the selection, and the focus and blur
handlers touch neither the selection nor the term. -/
theorem c8_selection_invariant :
    (∀ s : EvmState,
       (∀ n, evmInv (evmStep s (EvmEvent.select n)).1) ∧
       (∀ v, evmInv (evmStep s (EvmEvent.inputChange v)).1) ∧
       (evmInv s → evmInv (evmStep s EvmEvent.inputFocus).1) ∧
       (evmInv s → evmInv (evmStep s EvmEvent.inputBlur).1)) ∧
    (∀ s : SolanaState,
       (∀ n, solanaInv (solanaStep s (SolanaEvent.select n)).1) ∧
       (∀ v, solanaInv (solanaStep s (SolanaEvent.inputChange v)).1) ∧
       (solanaInv s → solanaInv (solanaStep s SolanaEvent.inputFocus).1) ∧
       (solanaInv s → solanaInv (solanaStep s SolanaEvent.inputBlur).1)) ∧
    (∀ s : SubstrateState,
       (∀ n, substrateInv (substrateStep s (SubstrateEvent.select n)).1) ∧
       (∀ v, substrateInv (substrateStep s (SubstrateEvent.inputChange v)).1) ∧
       (substrateInv s → substrateInv (substrateStep s SubstrateEvent.inputFocus).1) ∧
       (substrateInv s → substrateInv (substrateStep s SubstrateEvent.inputBlur).1)) := by
  refine ⟨fun s => ⟨?_, ?_, ?_, ?_⟩, fun s => ⟨?_, ?_, ?_, ?_⟩,
    fun s => ⟨?_, ?_, ?_, ?_⟩⟩
  · intro n m hm
    cases hm
    rfl
  · intro v m hm
    exact absurd hm (by simp [evmStep])
  · exact fun hinv => hinv
  · exact fun hinv => hinv
  · intro n m hm
    cases hm
    rfl
  · intro v m hm
    exact absurd hm (by simp [solanaStep])
  · exact fun hinv => hinv
  · exact fun hinv => hinv
  · intro n m hm
    cases hm
    rfl
  · intro v m hm
    exact absurd hm (by simp [substrateStep])
  · exact fun hinv => hinv
  · exact fun hinv => hinv

/-- C8, witness: the invariant holds after focusing the input from the
initial state, and after a concrete selection. -/
theorem c8_witness :
    evmInv (evmStep evmInit EvmEvent.inputFocus).1 ∧
    evmInv (evmStep evmInit (EvmEvent.select (mkEvmNet 0))).1 :=
  ⟨(c8_selection_invariant.1 evmInit).2.2.1 (fun n h => nomatch h),
   (c8_selection_invariant.1 evmInit).1 (mkEvmNet 0)⟩

/- ### C9 -/

/-- C9: when the fetch or parse fails, or the parsed document lacks the
expected top-level key, the component ends with an empty network list and
`loading` false; and in every outcome `loading` is false afterwards. -/
theorem c9_fetch_error_handling :
    (∀ s : EvmState,
       (applyFetchEvm FetchOutcome.failure s).networks = [] ∧
       (applyFetchEvm FetchOutcome.failure s).loading = false ∧
       (applyFetchEvm (FetchOutcome.success none) s).networks = [] ∧
       ∀ o, (applyFetchEvm o s).loading = false) ∧
    (∀ s : SolanaState,
       (applyFetchSolana FetchOutcome.failure s).networks = [] ∧
       (applyFetchSolana FetchOutcome.failure s).loading = false ∧
       (applyFetchSolana (FetchOutcome.success none) s).networks = [] ∧
       ∀ o, (applyFetchSolana o s).loading = false) ∧
    (∀ s : SubstrateState,
       (applyFetchSubstrate FetchOutcome.failure s).networks = [] ∧
       (applyFetchSubstrate FetchOutcome.failure s).loading = false ∧
       (applyFetchSubstrate (FetchOutcome.success none) s).networks = [] ∧
       ∀ o, (applyFetchSubstrate o s).loading = false) := by
  refine ⟨fun s => ⟨rfl, rfl, rfl, fun o => ?_⟩,
    fun s => ⟨rfl, rfl, rfl, fun o => ?_⟩,
    fun s => ⟨rfl, rfl, rfl, fun o => ?_⟩⟩
  · cases o <;> rfl
  · cases o <;> rfl
  · cases o <;> rfl

/- ### C10 -/

/-- A weakly sorted list without duplicates is strictly sorted. -/
theorem sorted_lt_of_sorted_le_nodup {l : List String}
    (h1 : l.Sorted (fun a b => a ≤ b)) (h2 : l.Nodup) :
    l.Sorted (fun a b => a < b) :=
  (h1.and h2).imp (fun hab => lt_of_le_of_ne hab.1 hab.2)

/-- C10: for every network — duplicate dataset names among its providers
included — `getAvailableData` is strictly sorted in ascending string order
and hence free of duplicates. -/
theorem c10_available_data_sorted :
    (∀ network : NetworkData,
       (getAvailableDataEvm network).Sorted (fun a b => a < b) ∧
       (getAvailableDataEvm network).Nodup) ∧
    (∀ network : SolanaNetworkData,
       (getAvailableDataSolana network).Sorted (fun a b => a < b) ∧
       (getAvailableDataSolana network).Nodup) := by
  constructor
  · intro network
    have hnd : (getAvailableDataEvm network).Nodup :=
      (List.perm_insertionSort _ _).symm.nodup (nodup_setOfList _)
    exact ⟨sorted_lt_of_sorted_le_nodup (List.sorted_insertionSort _ _) hnd, hnd⟩
  · intro network
    have hnd : (getAvailableDataSolana network).Nodup :=
      (List.perm_insertionSort _ _).symm.nodup (nodup_setOfList _)
    exact ⟨sorted_lt_of_sorted_le_nodup (List.sorted_insertionSort _ _) hnd, hnd⟩
